import Mathlib

/-!
Shallow embedding of the hydrological analysis core of `flood_analysis.py`
(and the duplicate severity ladder `assess_flood_risk` of `p.py`), together
with proofs of the specification claims about it.

Modelling conventions:
* Python floats are modelled as exact rationals `ℚ` (the claims are about
  the algebraic formulas, not about floating-point rounding).
* Python dicts keyed by station name are modelled as association lists
  `List (String × ℚ)`; `dict.get(key, 0)` becomes `lookupD`.
* A Python function that can raise (ValueError / ZeroDivisionError /
  IndexError) is modelled with an `Option` or a dedicated outcome type whose
  constructors name the raising branch.
* Where a Python function rounds values purely for presentation in the
  returned dict (`round(x, 2)`), the embedded function returns the
  unrounded computed quantity; the claims under verification are about the
  computed quantities.
-/

/-- `dict.get(key, 0)` on an association-list model of a Python dict:
the value of the first binding of `k`, or `0` when `k` is absent. -/
def lookupD (m : List (String × ℚ)) (k : String) : ℚ :=
  match m.find? (fun p => p.1 == k) with
  | some p => p.2
  | none => 0

/-- One iteration of the accumulation loop in `calculate_basin_rainfall_thiessen`
(`flood_analysis.py` lines 37-44): a station contributes `rainfall * weight`
to the weighted sum and `weight` to the total area exactly when its looked-up
weight is `> 0`. -/
def thiessenStep (basin_weights : List (String × ℚ)) (acc : ℚ × ℚ)
    (p : String × ℚ) : ℚ × ℚ :=
  let w := lookupD basin_weights p.1
  if 0 < w then (acc.1 + p.2 * w, acc.2 + w) else acc

/-- `calculate_basin_rainfall_thiessen` (`flood_analysis.py` lines 12-54),
returning the basin average. Each entry of `points_data` is modelled by its
`precipitation_sum` value (the code reads `data.get('precipitation_sum', 0) or 0`).
The `details` dict of the source is presentation data and is not modelled. -/
def calculate_basin_rainfall_thiessen
    (points_data basin_weights : List (String × ℚ)) : ℚ :=
  let acc := points_data.foldl (thiessenStep basin_weights) (0, 0)
  if 0 < acc.2 then acc.1 / acc.2 else 0

/-- The stations of `points_data` that contribute to the Thiessen average:
those whose looked-up weight is `> 0`. -/
def contributingStations
    (points_data basin_weights : List (String × ℚ)) : List (String × ℚ) :=
  points_data.filter (fun p => decide (0 < lookupD basin_weights p.1))

/-- Total contributing weight `Σ weight_i` over the contributing stations. -/
def thiessenWeightSum (points_data basin_weights : List (String × ℚ)) : ℚ :=
  ((contributingStations points_data basin_weights).map
    (fun p => lookupD basin_weights p.1)).sum

/-- Weighted rainfall sum `Σ depth_i * weight_i` over the contributing stations. -/
def thiessenWeightedSum (points_data basin_weights : List (String × ℚ)) : ℚ :=
  ((contributingStations points_data basin_weights).map
    (fun p => p.2 * lookupD basin_weights p.1)).sum

/-- `calculate_thiessen_rainfall` (`flood_analysis.py` lines 682-708),
returning the `basin_average` field. This wrapper accumulates every station of
`rainfall_data` (no `weight > 0` filter), with weight `weights.get(station, 0)`. -/
def calculate_thiessen_rainfall
    (rainfall_data weights : List (String × ℚ)) : ℚ :=
  let acc := rainfall_data.foldl
    (fun acc p => (acc.1 + p.2 * lookupD weights p.1, acc.2 + lookupD weights p.1))
    (0, 0)
  if 0 < acc.2 then acc.1 / acc.2 else 0

/-- `calculate_accumulated_rainfall` (`flood_analysis.py` lines 57-75).
For each index `i` the Python code sums the slice
`daily_rainfall[max(0, i - days + 1) : i + 1]`; over `ℕ`, truncated
subtraction gives `i + 1 - days = max(0, i - days + 1)`, so the slice is
`(daily_rainfall.drop (i + 1 - days)).take ((i + 1) - (i + 1 - days))`. -/
def calculate_accumulated_rainfall (daily_rainfall : List ℚ) (days : ℕ) : List ℚ :=
  (List.range daily_rainfall.length).map (fun i =>
    ((daily_rainfall.drop (i + 1 - days)).take ((i + 1) - (i + 1 - days))).sum)

/-- The fields of the result dict of `calculate_return_period_gumbel` that the
early-return branches populate (`return_period`, `probability`, `category`);
`None` becomes `Option.none`. -/
structure ReturnPeriodValues where
  return_period : Option ℚ
  probability : Option ℚ
  category : String

/-- `np.mean` of a list (population mean). -/
def populationMean (xs : List ℚ) : ℚ := xs.sum / (xs.length : ℚ)

/-- The square of `np.std` of a list: the population variance
(`np.std` uses `ddof = 0`). -/
def populationVariance (xs : List ℚ) : ℚ :=
  ((xs.map (fun x => (x - populationMean xs) ^ 2)).sum) / (xs.length : ℚ)

/-- Outcome of `calculate_return_period_gumbel`: either one of the two
early-return result dicts, or entry into the transcendental Gumbel branch
(`beta`, `mu`, `exp`, lines 129-171 of `flood_analysis.py`), which is recorded
by the sample mean and variance it starts from.  The claims under
verification only concern the two early-return branches. -/
inductive ReturnPeriodOutcome where
  | result (values : ReturnPeriodValues)
  | gumbelBranch (mean variance : ℚ)

/-- `calculate_return_period_gumbel` (`flood_analysis.py` lines 78-171), up to
the branch structure of lines 108-127.  The Python guard
`if not historical_data or len(historical_data) < 3` is `length < 3`;
the degenerate guard `std == 0 or std < 0.01` is `std < 0.01`, which for the
nonnegative `std = sqrt variance` is exactly `variance < 1/10000`. -/
def calculate_return_period_gumbel (discharge : ℚ) (historical_data : List ℚ) :
    ReturnPeriodOutcome :=
  if historical_data.length < 3 then
    .result ⟨none, none, "insufficient_data"⟩
  else
    let mean := populationMean historical_data
    let variance := populationVariance historical_data
    if variance < 1 / 10000 then
      .result ⟨some 1, some 100, "common"⟩
    else
      .gumbelBranch mean variance

/-- SCS potential maximum retention `S = 25400/CN - 254` (mm),
`flood_analysis.py` lines 219 and 731. -/
def scsRetention (cn : ℚ) : ℚ := 25400 / cn - 254

/-- SCS initial abstraction `Ia = 0.2 * S`, lines 220 and 734. -/
def scsIa (cn : ℚ) : ℚ := (2 / 10) * scsRetention cn

/-- SCS-CN runoff depth (lines 223-226 and 737-740): `0` when
`rainfall <= Ia`, else `(rainfall - Ia)^2 / (rainfall - Ia + S)`.
Total companion of the estimators below (in `ℚ`, division by a vanishing
denominator yields `0`; the estimators flag that case as a Python
`ZeroDivisionError` instead). -/
def scsRunoff (rainfall cn : ℚ) : ℚ :=
  if rainfall ≤ scsIa cn then 0
  else (rainfall - scsIa cn) ^ 2 / (rainfall - scsIa cn + scsRetention cn)

/-- The numeric fields of the result dicts of the two SCS estimators
(`method` and `curve_number` echoes omitted; the source rounds the
`estimate_discharge_from_rainfall` fields for presentation only). -/
structure DischargeEstimate where
  peak_discharge : ℚ
  runoff : ℚ
  runoff_coefficient : ℚ
  potential_retention_s : ℚ
  initial_abstraction_ia : ℚ

/-- `estimate_discharge_from_rainfall` (`flood_analysis.py` lines 174-251).
`none` models a Python `ZeroDivisionError` (`curve_number = 0` in `S`, or a
vanishing runoff denominator).  Peak discharge (lines 236-241):
`runoff_coeff * (runoff / Tc) * area / 3.6` when `Tc > 0` and `runoff > 0`,
else `0`. -/
def estimate_discharge_from_rainfall
    (basin_rainfall basin_area curve_number time_concentration : ℚ) :
    Option DischargeEstimate :=
  if curve_number = 0 then none
  else
    let S := scsRetention curve_number
    let Ia := scsIa curve_number
    let runoffO : Option ℚ :=
      if basin_rainfall ≤ Ia then some 0
      else if basin_rainfall - Ia + S = 0 then none
      else some ((basin_rainfall - Ia) ^ 2 / (basin_rainfall - Ia + S))
    runoffO.map (fun runoff =>
      let runoff_coeff := if 0 < basin_rainfall then runoff / basin_rainfall else 0
      let peak_discharge :=
        if 0 < time_concentration ∧ 0 < runoff then
          runoff_coeff * (runoff / time_concentration) * basin_area / (36 / 10)
        else 0
      ⟨peak_discharge, runoff, runoff_coeff, S, Ia⟩)

/-- `estimate_discharge_scs` (`flood_analysis.py` lines 711-758).  Same
runoff computation; peak discharge (line 748):
`(C * area * runoff) / (3.6 * Tc)` when `Tc > 0`, else `0`. -/
def estimate_discharge_scs
    (rainfall area_km2 curve_number time_of_concentration : ℚ) :
    Option DischargeEstimate :=
  if curve_number = 0 then none
  else
    let S := scsRetention curve_number
    let Ia := scsIa curve_number
    let runoffO : Option ℚ :=
      if rainfall ≤ Ia then some 0
      else if rainfall - Ia + S = 0 then none
      else some ((rainfall - Ia) ^ 2 / (rainfall - Ia + S))
    runoffO.map (fun runoff =>
      let runoff_coef := if 0 < rainfall then runoff / rainfall else 0
      let peak_discharge :=
        if 0 < time_of_concentration then
          runoff_coef * area_km2 * runoff / ((36 / 10) * time_of_concentration)
        else 0
      ⟨peak_discharge, runoff, runoff_coef, S, Ia⟩)

/-- The claim that the two SCS implementations' peak-discharge formulas
disagree somewhere on the common domain
(`curve_number ∈ [30, 100]`, `time_of_concentration > 0`). -/
def scsFormulasDiffer : Prop :=
  ∃ rainfall area cn tc : ℚ,
    (30 ≤ cn ∧ cn ≤ 100 ∧ 0 < tc) ∧
    (estimate_discharge_from_rainfall rainfall area cn tc).map
        DischargeEstimate.peak_discharge ≠
      (estimate_discharge_scs rainfall area cn tc).map
        DischargeEstimate.peak_discharge

/-- Muskingum-Cunge denominator `2K(1-X) + dt` (`flood_analysis.py` line 496). -/
def mcDenom (K X dt : ℚ) : ℚ := 2 * K * (1 - X) + dt

/-- `C1 = (dt - 2KX) / denom` (line 497). -/
def mcC1 (K X dt : ℚ) : ℚ := (dt - 2 * K * X) / mcDenom K X dt

/-- `C2 = (dt + 2KX) / denom` (line 498). -/
def mcC2 (K X dt : ℚ) : ℚ := (dt + 2 * K * X) / mcDenom K X dt

/-- `C3 = (2K(1-X) - dt) / denom` (line 499). -/
def mcC3 (K X dt : ℚ) : ℚ := (2 * K * (1 - X) - dt) / mcDenom K X dt

/-- The routing loop of lines 519-521: given the previous inflow and outflow
values, each remaining inflow `i` produces `C1*i + C2*prevI + C3*prevO`. -/
def mcOutflowAux (C1 C2 C3 : ℚ) : ℚ → ℚ → List ℚ → List ℚ
  | _, _, [] => []
  | prevI, prevO, i :: rest =>
    let o := C1 * i + C2 * prevI + C3 * prevO
    o :: mcOutflowAux C1 C2 C3 i o rest

/-- The routed outflow series: `outflow[0] = inflow[0]` (line 517), then the
loop of lines 519-521. -/
def mcOutflow (C1 C2 C3 : ℚ) : List ℚ → List ℚ
  | [] => []
  | i0 :: rest => i0 :: mcOutflowAux C1 C2 C3 i0 i0 rest

/-- Outcome of `muskingum_cunge_routing`:
* `invalid` — `ValueError` from the parameter validation of lines 489-493;
* `unstable C1 C2 C3 s` — the error dict of lines 508-514, carrying the three
  coefficients and their sum;
* `emptyInflow` — `IndexError` at `inflow[0]` (line 517) on an empty series;
* `ok C1 C2 C3 outflow` — the success dict (the post-hoc peak analysis of
  lines 523-556 is presentation data and is not modelled). -/
inductive RoutingOutcome where
  | invalid
  | unstable (C1 C2 C3 s : ℚ)
  | emptyInflow
  | ok (C1 C2 C3 : ℚ) (outflow : List ℚ)

/-- Whether the routing produced an outflow series. -/
def RoutingOutcome.isOk : RoutingOutcome → Bool
  | .ok _ _ _ _ => true
  | _ => false

/-- `muskingum_cunge_routing` (`flood_analysis.py` lines 455-556).
Validation first (X in `[0, 0.5]`, `K > 0`, `dt > 0`), then the coefficients,
then the stability test `abs(C1+C2+C3 - 1) < 0.001 and C1 >= 0 and C2 >= 0
and C3 >= 0` (lines 502-506), and only then the routing loop. -/
def muskingum_cunge_routing (inflow : List ℚ) (K : ℚ) (X : ℚ) (dt : ℚ) :
    RoutingOutcome :=
  if ¬ (0 ≤ X ∧ X ≤ 5 / 10) then .invalid
  else if K ≤ 0 ∨ dt ≤ 0 then .invalid
  else
    let C1 := mcC1 K X dt
    let C2 := mcC2 K X dt
    let C3 := mcC3 K X dt
    let s := C1 + C2 + C3
    if |s - 1| < 1 / 1000 ∧ 0 ≤ C1 ∧ 0 ≤ C2 ∧ 0 ≤ C3 then
      match inflow with
      | [] => .emptyInflow
      | _ :: _ => .ok C1 C2 C3 (mcOutflow C1 C2 C3 inflow)
    else .unstable C1 C2 C3 s

/-- One tier of a flood-threshold configuration:
`{"daily": ..., "accumulated_3d": ...}`. -/
structure TierThreshold where
  daily : ℚ
  accumulated_3d : ℚ

/-- A flood-threshold configuration `{"watch": ..., "warning": ..., "danger": ...}`. -/
structure FloodThresholds where
  watch : TierThreshold
  warning : TierThreshold
  danger : TierThreshold

/-- The result dict of `classify_flood_severity`. -/
structure SeverityResult where
  severity : String
  alert_level : ℕ
  recommendations : List String
  discharge : Option ℚ
  rainfall_daily : Option ℚ
  rainfall_3d : Option ℚ

/-- Recommendations of the `danger` branch (lines 282-287). -/
def dangerRecommendations : List String :=
  ["⛔ NGUY HIỂM: Sơ tán khẩn cấp người dân vùng trũng",
   "Chuẩn bị phương án cứu hộ, cứu nạn",
   "Đóng cửa xả đập nếu có",
   "Cảnh báo toàn bộ dân cư hạ du"]

/-- Recommendations of the `warning` branch (lines 292-297). -/
def warningRecommendations : List String :=
  ["⚠️ CẢNH BÁO: Chuẩn bị sơ tán người dân vùng nguy hiểm",
   "Tăng cường quan trắc mực nước",
   "Kiểm tra hệ thống thoát nước",
   "Thông báo rộng rãi cho dân cư"]

/-- Recommendations of the `watch` branch (lines 302-307). -/
def watchRecommendations : List String :=
  ["⚡ THEO DÕI: Theo dõi chặt chẽ diễn biến thời tiết",
   "Chuẩn bị phương án ứng phó",
   "Kiểm tra khu vực trũng thấp",
   "Thông báo đến chính quyền địa phương"]

/-- Recommendations of the in-ladder `safe` branch (lines 311-314). -/
def safeRecommendations : List String :=
  ["✅ AN TOÀN: Tình hình bình thường",
   "Tiếp tục theo dõi dự báo thời tiết"]

/-- `classify_flood_severity` (`flood_analysis.py` lines 254-323).
The Python guard `if thresholds and rainfall and accumulated_3d` tests
truthiness: a `None` or empty thresholds dict is `Option.none`, a `None`
rainfall value is `Option.none`, and a present value `x` is truthy exactly
when `x ≠ 0`.  When the guard fails, the initial
`severity = "safe"`, `alert_level = 0`, `recommendations = []` of lines
272-274 are returned unchanged. -/
def classify_flood_severity (discharge rainfall accumulated_3d : Option ℚ)
    (thresholds : Option FloodThresholds) : SeverityResult :=
  match thresholds, rainfall, accumulated_3d with
  | some t, some r, some a =>
    if r ≠ 0 ∧ a ≠ 0 then
      if t.danger.daily ≤ r ∨ t.danger.accumulated_3d ≤ a then
        ⟨"danger", 4, dangerRecommendations, discharge, rainfall, accumulated_3d⟩
      else if t.warning.daily ≤ r ∨ t.warning.accumulated_3d ≤ a then
        ⟨"warning", 3, warningRecommendations, discharge, rainfall, accumulated_3d⟩
      else if t.watch.daily ≤ r ∨ t.watch.accumulated_3d ≤ a then
        ⟨"watch", 2, watchRecommendations, discharge, rainfall, accumulated_3d⟩
      else
        ⟨"safe", 1, safeRecommendations, discharge, rainfall, accumulated_3d⟩
    else
      ⟨"safe", 0, [], discharge, rainfall, accumulated_3d⟩
  | _, _, _ =>
      ⟨"safe", 0, [], discharge, rainfall, accumulated_3d⟩

/-- `assess_flood_risk` (`p.py` lines 261-275): the same OR-of-two-conditions
ladder with no truthiness guard, returning `(risk_level, description)`. -/
def assess_flood_risk (daily_rain accumulated_3d : ℚ)
    (thresholds : FloodThresholds) : String × String :=
  if thresholds.danger.daily ≤ daily_rain ∨
      thresholds.danger.accumulated_3d ≤ accumulated_3d then
    ("NGUY HIỂM", "⛔ Nguy cơ lũ lớn - cần sơ tán khẩn cấp")
  else if thresholds.warning.daily ≤ daily_rain ∨
      thresholds.warning.accumulated_3d ≤ accumulated_3d then
    ("CẢNH BÁO", "⚠️  Nguy cơ lũ cao - chuẩn bị sơ tán")
  else if thresholds.watch.daily ≤ daily_rain ∨
      thresholds.watch.accumulated_3d ≤ accumulated_3d then
    ("THEO DÕI", "⚡ Nguy cơ lũ - theo dõi chặt chẽ")
  else
    ("AN TOÀN", "✓ Trong ngưỡng an toàn")

/-- The threshold configuration used by the spec's severity-ladder example:
watch 80/200, warning 120/350, danger 180/550. -/
def specExampleThresholds : FloodThresholds :=
  ⟨⟨80, 200⟩, ⟨120, 350⟩, ⟨180, 550⟩⟩

example : calculate_accumulated_rainfall [10, 20, 150, 30, 10] 3 =
    [10, 30, 180, 200, 190] := by
  norm_num [calculate_accumulated_rainfall, List.range_succ]

example : scsRunoff 100 75 = (1246 / 15) ^ 2 / (2516 / 15) := by
  norm_num [scsRunoff, scsIa, scsRetention]

example : mcC1 3600 (2 / 10) 3600 = 3 / 13 := by
  norm_num [mcC1, mcDenom]

example : calculate_return_period_gumbel 500 [100, 100, 100] =
    .result ⟨some 1, some 100, "common"⟩ := by
  norm_num [calculate_return_period_gumbel, populationVariance, populationMean]

/-- On truthy inputs (`rainfall` and `accumulated_3d` present and nonzero),
`classify_flood_severity` reduces to the three-tier `if` ladder. -/
theorem classify_flood_severity_truthy (d : Option ℚ) (r a : ℚ)
    (t : FloodThresholds) (hr : r ≠ 0) (ha : a ≠ 0) :
    classify_flood_severity d (some r) (some a) (some t) =
      if t.danger.daily ≤ r ∨ t.danger.accumulated_3d ≤ a then
        ⟨"danger", 4, dangerRecommendations, d, some r, some a⟩
      else if t.warning.daily ≤ r ∨ t.warning.accumulated_3d ≤ a then
        ⟨"warning", 3, warningRecommendations, d, some r, some a⟩
      else if t.watch.daily ≤ r ∨ t.watch.accumulated_3d ≤ a then
        ⟨"watch", 2, watchRecommendations, d, some r, some a⟩
      else ⟨"safe", 1, safeRecommendations, d, some r, some a⟩ := by
  simp [classify_flood_severity, hr, ha]

/-- C4 (counterexample): with the spec's example thresholds and daily
rainfall 190, the value `accumulated_3d = 0` does NOT yield severity
"danger" as the claim asserts for every accumulated value: the truthiness
guard of `classify_flood_severity` short-circuits to "safe". -/
theorem classify_daily190_acc0_not_danger :
    (classify_flood_severity none (some 190) (some 0)
        (some specExampleThresholds)).severity = "safe" ∧
    ("safe" : String) ≠ "danger" := by
  constructor
  · rfl
  · decide

/-- C4 (amended): on truthy inputs (rainfall and accumulated both present and
nonzero), `classify_flood_severity` is the strict OR-of-two-conditions
ladder evaluated highest tier first, and `assess_flood_risk` of `p.py` is the
same ladder unconditionally.  With the spec's example thresholds, daily 190
gives "danger" for every nonzero accumulated value, and daily 50 with
accumulated 50 gives "safe". -/
theorem classify_severity_or_ladder (d : Option ℚ) (r a : ℚ)
    (t : FloodThresholds) (hr : r ≠ 0) (ha : a ≠ 0) :
    ((classify_flood_severity d (some r) (some a) (some t)).severity = "danger"
      ↔ (t.danger.daily ≤ r ∨ t.danger.accumulated_3d ≤ a))
  ∧ ((classify_flood_severity d (some r) (some a) (some t)).severity = "warning"
      ↔ (¬(t.danger.daily ≤ r ∨ t.danger.accumulated_3d ≤ a) ∧
         (t.warning.daily ≤ r ∨ t.warning.accumulated_3d ≤ a)))
  ∧ ((classify_flood_severity d (some r) (some a) (some t)).severity = "watch"
      ↔ (¬(t.danger.daily ≤ r ∨ t.danger.accumulated_3d ≤ a) ∧
         ¬(t.warning.daily ≤ r ∨ t.warning.accumulated_3d ≤ a) ∧
         (t.watch.daily ≤ r ∨ t.watch.accumulated_3d ≤ a)))
  ∧ ((classify_flood_severity d (some r) (some a) (some t)).severity = "safe"
      ↔ (¬(t.danger.daily ≤ r ∨ t.danger.accumulated_3d ≤ a) ∧
         ¬(t.warning.daily ≤ r ∨ t.warning.accumulated_3d ≤ a) ∧
         ¬(t.watch.daily ≤ r ∨ t.watch.accumulated_3d ≤ a)))
  ∧ ((assess_flood_risk r a t).1 = "NGUY HIỂM"
      ↔ (t.danger.daily ≤ r ∨ t.danger.accumulated_3d ≤ a))
  ∧ (∀ a' : ℚ, a' ≠ 0 →
      (classify_flood_severity d (some 190) (some a')
          (some specExampleThresholds)).severity = "danger")
  ∧ (classify_flood_severity d (some 50) (some 50)
        (some specExampleThresholds)).severity = "safe" := by
  rw [classify_flood_severity_truthy d r a t hr ha]
  refine ⟨?_, ?_, ?_, ?_, ?_, ?_, ?_⟩
  · split_ifs with h1 h2 h3 <;> simp_all
  · split_ifs with h1 h2 h3 <;> simp_all
  · split_ifs with h1 h2 h3 <;> simp_all
  · split_ifs with h1 h2 h3 <;> simp_all
  · unfold assess_flood_risk
    split_ifs with h1 h2 h3 <;> simp_all
  · intro a' ha'
    rw [classify_flood_severity_truthy d 190 a' specExampleThresholds
      (by norm_num) ha']
    rw [if_pos (Or.inl (by norm_num [specExampleThresholds]))]
  · rw [classify_flood_severity_truthy d 50 50 specExampleThresholds
      (by norm_num) (by norm_num)]
    rw [if_neg (by norm_num [specExampleThresholds]),
        if_neg (by norm_num [specExampleThresholds]),
        if_neg (by norm_num [specExampleThresholds])]

/-- C4 (witness): the amended ladder theorem applied at daily 190,
accumulated 100, with the spec's example thresholds. -/
theorem classify_severity_or_ladder_witness :
    (classify_flood_severity none (some 190) (some 100)
        (some specExampleThresholds)).severity = "danger" :=
  (classify_severity_or_ladder none 190 100 specExampleThresholds
    (by norm_num) (by norm_num)).1.mpr
    (Or.inl (by norm_num [specExampleThresholds]))

/-- C10: whenever the daily rainfall is absent or 0, the accumulated value is
absent or 0, or the thresholds are absent/empty, `classify_flood_severity`
skips the ladder and returns severity "safe" with alert level 0 and no
recommendations — regardless of how large the other value is; and when all
three are truthy but no tier matches, the in-ladder safe branch returns
alert level 1. -/
theorem classify_guard_behavior (d x : Option ℚ) (t : FloodThresholds)
    (r a : ℚ) :
    classify_flood_severity d none x (some t) = ⟨"safe", 0, [], d, none, x⟩
  ∧ classify_flood_severity d (some 0) x (some t) =
      ⟨"safe", 0, [], d, some 0, x⟩
  ∧ classify_flood_severity d (some r) none (some t) =
      ⟨"safe", 0, [], d, some r, none⟩
  ∧ classify_flood_severity d (some r) (some 0) (some t) =
      ⟨"safe", 0, [], d, some r, some 0⟩
  ∧ classify_flood_severity d (some r) (some a) none =
      ⟨"safe", 0, [], d, some r, some a⟩
  ∧ (r ≠ 0 → a ≠ 0 →
      ¬(t.danger.daily ≤ r ∨ t.danger.accumulated_3d ≤ a) →
      ¬(t.warning.daily ≤ r ∨ t.warning.accumulated_3d ≤ a) →
      ¬(t.watch.daily ≤ r ∨ t.watch.accumulated_3d ≤ a) →
      classify_flood_severity d (some r) (some a) (some t) =
        ⟨"safe", 1, safeRecommendations, d, some r, some a⟩) := by
  refine ⟨?_, ?_, ?_, ?_, ?_, ?_⟩
  · cases x <;> rfl
  · cases x <;> simp [classify_flood_severity]
  · rfl
  · simp [classify_flood_severity]
  · rfl
  · intro hr ha h1 h2 h3
    rw [classify_flood_severity_truthy d r a t hr ha,
        if_neg h1, if_neg h2, if_neg h3]

/-- C10 (witness): the guard theorem applied with the spec's example
thresholds, daily rainfall 1000 (far above every danger threshold) and
accumulated value 0. -/
theorem classify_guard_behavior_witness :
    classify_flood_severity none (some 1000) (some 0)
        (some specExampleThresholds) =
      ⟨"safe", 0, [], none, some 1000, some 0⟩ :=
  (classify_guard_behavior none (some 0) specExampleThresholds 1000 0).2.2.2.1

/-- C5: the Gumbel return-period estimator returns the
`insufficient_data` result (with `return_period = None`) for every sample of
fewer than 3 peaks, and the degenerate result (`return_period = 1.0`,
`probability = 100`, category "common") for every sample of at least 3 peaks
whose population standard deviation is below 0.01 (equivalently, population
variance below 10⁻⁴); in particular for the peaks [100, 100, 100]. -/
theorem gumbel_insufficient_and_degenerate (d : ℚ) (hist : List ℚ) :
    (hist.length < 3 →
      calculate_return_period_gumbel d hist =
        .result ⟨none, none, "insufficient_data"⟩)
  ∧ (3 ≤ hist.length → populationVariance hist < 1 / 10000 →
      calculate_return_period_gumbel d hist =
        .result ⟨some 1, some 100, "common"⟩)
  ∧ calculate_return_period_gumbel d [100, 100, 100] =
      .result ⟨some 1, some 100, "common"⟩ := by
  refine ⟨?_, ?_, ?_⟩
  · intro h
    rw [calculate_return_period_gumbel, if_pos h]
  · intro h hv
    rw [calculate_return_period_gumbel, if_neg (by omega), if_pos hv]
  · norm_num [calculate_return_period_gumbel, populationVariance,
      populationMean]

/-- C5 (witness): the Gumbel theorem applied at discharge 500 with the
two-element sample [100, 200] (insufficient data). -/
theorem gumbel_insufficient_witness :
    calculate_return_period_gumbel 500 [100, 200] =
      .result ⟨none, none, "insufficient_data"⟩ :=
  (gumbel_insufficient_and_degenerate 500 [100, 200]).1 (by norm_num)

/-- C3 (code evidence): contrary to the claim, neither SCS estimator rejects
out-of-domain parameters.  At `curve_number = 110` (outside [30, 100]) both
return a normal result — silently using the negative retention
`S = -254/11` — and at `time_of_concentration ≤ 0` both return a normal
result with `peak_discharge = 0` instead of failing. -/
theorem scs_estimators_do_not_validate :
    (estimate_discharge_from_rainfall 100 10 110 6).isSome = true
  ∧ (estimate_discharge_scs 100 10 110 6).isSome = true
  ∧ (estimate_discharge_from_rainfall 100 10 110 6).map
      DischargeEstimate.potential_retention_s = some (-254 / 11)
  ∧ (estimate_discharge_from_rainfall 100 10 75 0).map
      DischargeEstimate.peak_discharge = some 0
  ∧ (estimate_discharge_scs 100 10 75 (-1)).map
      DischargeEstimate.peak_discharge = some 0 := by
  refine ⟨?_, ?_, ?_, ?_, ?_⟩ <;>
    norm_num [estimate_discharge_from_rainfall, estimate_discharge_scs,
      scsRetention, scsIa]

/-- The `i`-th entry of the accumulated series is the sum of the
`days`-window slice ending at `i`. -/
theorem accumulated_get? (daily : List ℚ) (days i : ℕ)
    (h : i < daily.length) :
    (calculate_accumulated_rainfall daily days).get? i =
      some (((daily.drop (i + 1 - days)).take ((i + 1) - (i + 1 - days))).sum) := by
  rw [calculate_accumulated_rainfall, List.get?_map, List.get?_range h]
  rfl

/-- `daily.get ⟨i, _⟩` is an element of the window slice ending at `i`
(for `days ≥ 1`). -/
theorem daily_mem_window (daily : List ℚ) (days i : ℕ) (hdays : 1 ≤ days)
    (h : i < daily.length) (di : ℚ) (hdi : daily.get? i = some di) :
    di ∈ (daily.drop (i + 1 - days)).take ((i + 1) - (i + 1 - days)) := by
  have hs : i + 1 - days ≤ i := by omega
  have hlt : i - (i + 1 - days) < (i + 1) - (i + 1 - days) := by omega
  have hget : ((daily.drop (i + 1 - days)).take ((i + 1) - (i + 1 - days))).get?
      (i - (i + 1 - days)) = some di := by
    rw [List.get?_take hlt, List.get?_drop]
    have : i + 1 - days + (i - (i + 1 - days)) = i := by omega
    rw [this, hdi]
  exact List.get?_mem hget

/-- C8: for every daily series and window `N ≥ 1`, the accumulated series has
the same length as the input; each entry `i` is the sum of the slice
`daily[max(0, i-N+1) : i+1]` (over `ℕ`, the start index `i + 1 - N`); and on
nonnegative rainfall values the invariant `accumulated[i] ≥ daily[i]` holds
at every index. -/
theorem accumulated_series_aligned (daily : List ℚ) (days : ℕ)
    (hdays : 1 ≤ days) :
    (calculate_accumulated_rainfall daily days).length = daily.length
  ∧ (∀ i : ℕ, i < daily.length →
      (calculate_accumulated_rainfall daily days).get? i =
        some (((daily.drop (i + 1 - days)).take ((i + 1) - (i + 1 - days))).sum)
      ∧ ((i + 1 - days : ℕ) : ℤ) = max 0 ((i : ℤ) - (days : ℤ) + 1))
  ∧ ((∀ x ∈ daily, 0 ≤ x) → ∀ i : ℕ, i < daily.length → ∀ di ai : ℚ,
      daily.get? i = some di →
      (calculate_accumulated_rainfall daily days).get? i = some ai →
      di ≤ ai) := by
  refine ⟨?_, ?_, ?_⟩
  · simp [calculate_accumulated_rainfall]
  · intro i hi
    exact ⟨accumulated_get? daily days i hi, by omega⟩
  · intro hnn i hi di ai hdi hai
    rw [accumulated_get? daily days i hi] at hai
    obtain rfl : ((daily.drop (i + 1 - days)).take
        ((i + 1) - (i + 1 - days))).sum = ai := by
      exact Option.some.inj hai
    refine List.single_le_sum ?_ di (daily_mem_window daily days i hdays hi di hdi)
    intro x hx
    exact hnn x (List.mem_of_mem_drop (List.mem_of_mem_take hx))

/-- C8 (witness): the alignment theorem applied to the spec's example series
[10, 20, 150, 30, 10] with a 3-day window. -/
theorem accumulated_series_aligned_witness :
    (calculate_accumulated_rainfall [10, 20, 150, 30, 10] 3).length = 5 :=
  (accumulated_series_aligned [10, 20, 150, 30, 10] 3 (by norm_num)).1

/-- A station with positive looked-up weight is kept by the contributing
filter. -/
theorem contributing_cons_pos (weights : List (String × ℚ)) (p : String × ℚ)
    (rest : List (String × ℚ)) (hw : 0 < lookupD weights p.1) :
    contributingStations (p :: rest) weights =
      p :: contributingStations rest weights := by
  simp [contributingStations, List.filter_cons, hw]

/-- A station with non-positive looked-up weight is dropped by the
contributing filter. -/
theorem contributing_cons_neg (weights : List (String × ℚ)) (p : String × ℚ)
    (rest : List (String × ℚ)) (hw : ¬ 0 < lookupD weights p.1) :
    contributingStations (p :: rest) weights =
      contributingStations rest weights := by
  simp [contributingStations, List.filter_cons, hw]

/-- Every contributing station has positive looked-up weight. -/
theorem contributing_weight_pos (points weights : List (String × ℚ))
    (p : String × ℚ) (hp : p ∈ contributingStations points weights) :
    0 < lookupD weights p.1 := by
  have := (List.mem_filter.mp hp).2
  simpa using this

/-- Cons step of the contributing weighted sum, positive-weight case. -/
theorem thiessenWeightedSum_cons_pos (weights : List (String × ℚ))
    (p : String × ℚ) (rest : List (String × ℚ))
    (hw : 0 < lookupD weights p.1) :
    thiessenWeightedSum (p :: rest) weights =
      p.2 * lookupD weights p.1 + thiessenWeightedSum rest weights := by
  simp [thiessenWeightedSum, contributing_cons_pos weights p rest hw]

/-- Cons step of the contributing weighted sum, dropped-station case. -/
theorem thiessenWeightedSum_cons_neg (weights : List (String × ℚ))
    (p : String × ℚ) (rest : List (String × ℚ))
    (hw : ¬ 0 < lookupD weights p.1) :
    thiessenWeightedSum (p :: rest) weights = thiessenWeightedSum rest weights := by
  simp [thiessenWeightedSum, contributing_cons_neg weights p rest hw]

/-- Cons step of the contributing weight sum, positive-weight case. -/
theorem thiessenWeightSum_cons_pos (weights : List (String × ℚ))
    (p : String × ℚ) (rest : List (String × ℚ))
    (hw : 0 < lookupD weights p.1) :
    thiessenWeightSum (p :: rest) weights =
      lookupD weights p.1 + thiessenWeightSum rest weights := by
  simp [thiessenWeightSum, contributing_cons_pos weights p rest hw]

/-- Cons step of the contributing weight sum, dropped-station case. -/
theorem thiessenWeightSum_cons_neg (weights : List (String × ℚ))
    (p : String × ℚ) (rest : List (String × ℚ))
    (hw : ¬ 0 < lookupD weights p.1) :
    thiessenWeightSum (p :: rest) weights = thiessenWeightSum rest weights := by
  simp [thiessenWeightSum, contributing_cons_neg weights p rest hw]

/-- The Thiessen accumulation loop computes exactly the contributing
weighted-rainfall sum and the contributing weight sum. -/
theorem thiessen_foldl_eq (weights : List (String × ℚ)) :
    ∀ (points : List (String × ℚ)) (a b : ℚ),
      points.foldl (thiessenStep weights) (a, b) =
        (a + thiessenWeightedSum points weights,
         b + thiessenWeightSum points weights) := by
  intro points
  induction points with
  | nil =>
    intro a b
    simp [thiessenWeightedSum, thiessenWeightSum, contributingStations]
  | cons p rest ih =>
    intro a b
    by_cases hw : 0 < lookupD weights p.1
    · rw [List.foldl_cons]
      have hstep : thiessenStep weights (a, b) p =
          (a + p.2 * lookupD weights p.1, b + lookupD weights p.1) := by
        simp [thiessenStep, hw]
      rw [hstep, ih, thiessenWeightedSum_cons_pos weights p rest hw,
        thiessenWeightSum_cons_pos weights p rest hw]
      simp only [Prod.mk.injEq]
      constructor <;> ring
    · rw [List.foldl_cons]
      have hstep : thiessenStep weights (a, b) p = (a, b) := by
        simp [thiessenStep, hw]
      rw [hstep, ih, thiessenWeightedSum_cons_neg weights p rest hw,
        thiessenWeightSum_cons_neg weights p rest hw]

/-- Upper convexity bound: if every station of `L` has depth at most `M` and
nonnegative looked-up weight, the weighted sum is at most `M` times the
weight sum. -/
theorem weightedSum_le (weights : List (String × ℚ)) (M : ℚ) :
    ∀ L : List (String × ℚ), (∀ p ∈ L, 0 ≤ lookupD weights p.1) →
      (∀ p ∈ L, p.2 ≤ M) →
      (L.map (fun p => p.2 * lookupD weights p.1)).sum ≤
        M * (L.map (fun p => lookupD weights p.1)).sum := by
  intro L
  induction L with
  | nil => intro _ _; simp
  | cons p rest ih =>
    intro hw hM
    simp only [List.map_cons, List.sum_cons, mul_add]
    have h1 : p.2 * lookupD weights p.1 ≤ M * lookupD weights p.1 :=
      mul_le_mul_of_nonneg_right (hM p (by simp)) (hw p (by simp))
    have h2 := ih (fun q hq => hw q (by simp [hq])) (fun q hq => hM q (by simp [hq]))
    linarith

/-- Lower convexity bound: symmetric to `weightedSum_le`. -/
theorem weightedSum_ge (weights : List (String × ℚ)) (m : ℚ) :
    ∀ L : List (String × ℚ), (∀ p ∈ L, 0 ≤ lookupD weights p.1) →
      (∀ p ∈ L, m ≤ p.2) →
      m * (L.map (fun p => lookupD weights p.1)).sum ≤
        (L.map (fun p => p.2 * lookupD weights p.1)).sum := by
  intro L
  induction L with
  | nil => intro _ _; simp
  | cons p rest ih =>
    intro hw hm
    simp only [List.map_cons, List.sum_cons, mul_add]
    have h1 : m * lookupD weights p.1 ≤ p.2 * lookupD weights p.1 :=
      mul_le_mul_of_nonneg_right (hm p (by simp)) (hw p (by simp))
    have h2 := ih (fun q hq => hw q (by simp [hq])) (fun q hq => hm q (by simp [hq]))
    linarith

/-- When every looked-up weight is nonnegative, the unfiltered sums of the
wrapper equal the contributing (filtered) sums: stations of weight 0
contribute nothing. -/
theorem sums_all_eq_contributing (weights : List (String × ℚ)) :
    ∀ L : List (String × ℚ), (∀ p ∈ L, 0 ≤ lookupD weights p.1) →
      (L.map (fun p => p.2 * lookupD weights p.1)).sum =
          thiessenWeightedSum L weights ∧
        (L.map (fun p => lookupD weights p.1)).sum = thiessenWeightSum L weights := by
  intro L
  induction L with
  | nil =>
    intro _
    simp [thiessenWeightedSum, thiessenWeightSum, contributingStations]
  | cons p rest ih =>
    intro hw
    obtain ⟨ih1, ih2⟩ := ih (fun q hq => hw q (by simp [hq]))
    by_cases hp : 0 < lookupD weights p.1
    · rw [List.map_cons, List.sum_cons, List.map_cons, List.sum_cons,
        thiessenWeightedSum_cons_pos weights p rest hp,
        thiessenWeightSum_cons_pos weights p rest hp, ih1, ih2]
      exact ⟨rfl, rfl⟩
    · have hz : lookupD weights p.1 = 0 :=
        le_antisymm (not_lt.mp hp) (hw p (by simp))
      rw [List.map_cons, List.sum_cons, List.map_cons, List.sum_cons,
        thiessenWeightedSum_cons_neg weights p rest hp,
        thiessenWeightSum_cons_neg weights p rest hp, ih1, ih2, hz]
      simp

/-- The wrapper's accumulation loop (no filter). -/
theorem wrapper_foldl_eq (weights : List (String × ℚ)) :
    ∀ (points : List (String × ℚ)) (a b : ℚ),
      points.foldl (fun acc p =>
        (acc.1 + p.2 * lookupD weights p.1, acc.2 + lookupD weights p.1)) (a, b) =
      (a + (points.map (fun p => p.2 * lookupD weights p.1)).sum,
       b + (points.map (fun p => lookupD weights p.1)).sum) := by
  intro points
  induction points with
  | nil => intro a b; simp
  | cons p rest ih =>
    intro a b
    rw [List.foldl_cons, ih]
    simp only [List.map_cons, List.sum_cons, Prod.mk.injEq]
    constructor <;> ring

/-- C7: the Thiessen estimate equals the weighted average
`Σ(depth_i × weight_i) / Σ(weight_i)` over the stations with positive weight;
with positive total contributing weight the result lies between any lower and
upper bound of the contributing depths (in particular in
[min depth, max depth]); with zero total weight the result is exactly 0; and
the wrapper `calculate_thiessen_rainfall` agrees with it whenever the weight
map is nonnegative. -/
theorem thiessen_weighted_average (points weights : List (String × ℚ)) (m M : ℚ) :
    (0 < thiessenWeightSum points weights →
      calculate_basin_rainfall_thiessen points weights =
        thiessenWeightedSum points weights / thiessenWeightSum points weights)
  ∧ (thiessenWeightSum points weights = 0 →
      calculate_basin_rainfall_thiessen points weights = 0)
  ∧ (0 < thiessenWeightSum points weights →
      (∀ p ∈ contributingStations points weights, m ≤ p.2) →
      (∀ p ∈ contributingStations points weights, p.2 ≤ M) →
      m ≤ calculate_basin_rainfall_thiessen points weights ∧
        calculate_basin_rainfall_thiessen points weights ≤ M)
  ∧ ((∀ p ∈ points, 0 ≤ lookupD weights p.1) →
      calculate_thiessen_rainfall points weights =
        calculate_basin_rainfall_thiessen points weights) := by
  have hfold := thiessen_foldl_eq weights points 0 0
  have hbasin : calculate_basin_rainfall_thiessen points weights =
      if 0 < thiessenWeightSum points weights then
        thiessenWeightedSum points weights / thiessenWeightSum points weights
      else 0 := by
    rw [calculate_basin_rainfall_thiessen, hfold]
    simp
  refine ⟨?_, ?_, ?_, ?_⟩
  · intro hW
    rw [hbasin, if_pos hW]
  · intro hW
    rw [hbasin, hW]
    simp
  · intro hW hm hM
    rw [hbasin, if_pos hW]
    have hwnn : ∀ p ∈ contributingStations points weights,
        0 ≤ lookupD weights p.1 :=
      fun p hp => (contributing_weight_pos points weights p hp).le
    constructor
    · rw [le_div_iff hW]
      have := weightedSum_ge weights m (contributingStations points weights) hwnn hm
      simpa [thiessenWeightedSum, thiessenWeightSum] using this
    · rw [div_le_iff hW]
      have := weightedSum_le weights M (contributingStations points weights) hwnn hM
      simpa [thiessenWeightedSum, thiessenWeightSum] using this
  · intro hnn
    obtain ⟨h1, h2⟩ := sums_all_eq_contributing weights points hnn
    rw [calculate_thiessen_rainfall, wrapper_foldl_eq weights points 0 0, hbasin]
    simp only [zero_add, h1, h2]

/-- C7 (witness): the Thiessen theorem applied to a two-station example
(depths 10 and 30, weights 1 and 3): the basin average is
`(10*1 + 30*3) / (1 + 3)`. -/
theorem thiessen_weighted_average_witness :
    calculate_basin_rainfall_thiessen [("A", 10), ("B", 30)]
        [("A", 1), ("B", 3)] =
      thiessenWeightedSum [("A", 10), ("B", 30)] [("A", 1), ("B", 3)] /
        thiessenWeightSum [("A", 10), ("B", 30)] [("A", 1), ("B", 3)] :=
  (thiessen_weighted_average [("A", 10), ("B", 30)] [("A", 1), ("B", 3)] 10 30).1
    (by
      simp [thiessenWeightSum, contributingStations, lookupD, List.find?,
        List.filter]
      norm_num)

/-- For a curve number in [30, 100] the potential retention is nonnegative. -/
theorem scsRetention_nonneg (cn : ℚ) (h30 : 30 ≤ cn) (h100 : cn ≤ 100) :
    0 ≤ scsRetention cn := by
  have hcn : (0 : ℚ) < cn := by linarith
  rw [scsRetention, sub_nonneg, le_div_iff hcn]
  linarith

/-- The SCS-CN runoff depth is nonnegative on the documented CN domain. -/
theorem scsRunoff_nonneg (r cn : ℚ) (h30 : 30 ≤ cn) (h100 : cn ≤ 100) :
    0 ≤ scsRunoff r cn := by
  rw [scsRunoff]
  split_ifs with h
  · exact le_refl 0
  · push_neg at h
    have hS := scsRetention_nonneg cn h30 h100
    exact div_nonneg (sq_nonneg _) (by linarith)

/-- The SCS-CN runoff depth is non-decreasing in rainfall on the documented
CN domain. -/
theorem scsRunoff_mono (cn r1 r2 : ℚ) (h30 : 30 ≤ cn) (h100 : cn ≤ 100)
    (h12 : r1 ≤ r2) : scsRunoff r1 cn ≤ scsRunoff r2 cn := by
  have hS := scsRetention_nonneg cn h30 h100
  by_cases ha : r1 ≤ scsIa cn
  · rw [scsRunoff, if_pos ha]
    exact scsRunoff_nonneg r2 cn h30 h100
  · push_neg at ha
    have ha2 : scsIa cn < r2 := by linarith
    rw [scsRunoff, if_neg (not_le.mpr ha), scsRunoff, if_neg (not_le.mpr ha2)]
    have hu0 : 0 < r1 - scsIa cn := by linarith
    have hv0 : 0 < r2 - scsIa cn := by linarith
    have huv : r1 - scsIa cn ≤ r2 - scsIa cn := by linarith
    rw [div_le_div_iff (by linarith) (by linarith)]
    nlinarith [mul_nonneg (mul_nonneg hu0.le hv0.le) (sub_nonneg.mpr huv),
      mul_nonneg (mul_nonneg hS (sub_nonneg.mpr huv))
        (by linarith : (0 : ℚ) ≤ (r2 - scsIa cn) + (r1 - scsIa cn))]

/-- On the documented CN domain, `estimate_discharge_from_rainfall` returns a
result whose `runoff` field is exactly `scsRunoff`. -/
theorem estimate_runoff_eq (r area cn tc : ℚ) (h30 : 30 ≤ cn)
    (h100 : cn ≤ 100) :
    (estimate_discharge_from_rainfall r area cn tc).map
      DischargeEstimate.runoff = some (scsRunoff r cn) := by
  have hcn : cn ≠ 0 := (by linarith : (0 : ℚ) < cn).ne'
  rw [estimate_discharge_from_rainfall, if_neg hcn]
  by_cases hr : r ≤ scsIa cn
  · simp [hr, scsRunoff]
  · have hS := scsRetention_nonneg cn h30 h100
    push_neg at hr
    have hden : 0 < r - scsIa cn + scsRetention cn := by linarith
    simp [not_le.mpr hr, hden.ne', scsRunoff]

/-- The peak-discharge values of the two SCS estimators agree everywhere on
the common domain: both compute `C * A * Q / (3.6 * Tc)`. -/
theorem scs_peak_agree (r area cn tc : ℚ) (h30 : 30 ≤ cn) (h100 : cn ≤ 100)
    (htc : 0 < tc) :
    (estimate_discharge_from_rainfall r area cn tc).map
        DischargeEstimate.peak_discharge =
      (estimate_discharge_scs r area cn tc).map
        DischargeEstimate.peak_discharge := by
  have hcn : cn ≠ 0 := (by linarith : (0 : ℚ) < cn).ne'
  simp only [estimate_discharge_from_rainfall, estimate_discharge_scs]
  rw [if_neg hcn, if_neg hcn]
  by_cases hr : r ≤ scsIa cn
  · simp [hr, htc, lt_irrefl]
  · have hS := scsRetention_nonneg cn h30 h100
    push_neg at hr
    have hden : 0 < r - scsIa cn + scsRetention cn := by linarith
    have hrun : 0 < (r - scsIa cn) ^ 2 / (r - scsIa cn + scsRetention cn) :=
      div_pos (pow_pos (sub_pos.mpr hr) 2) hden
    rw [if_neg (not_le.mpr hr), if_neg hden.ne']
    simp only [Option.map_some']
    rw [if_pos (And.intro htc hrun), if_pos htc]
    generalize ((r - scsIa cn) ^ 2 / (r - scsIa cn + scsRetention cn) : ℚ) = q
    congr 1
    generalize (if 0 < r then q / r else 0 : ℚ) = c
    field_simp
    ring

/-- C6: with CN in [30, 100] and Tc > 0, the runoff depth of the SCS-CN
estimator is 0 whenever `rainfall ≤ Ia`, equals
`(rainfall - Ia)² / (rainfall - Ia + S)` otherwise, and is a non-decreasing
function of rainfall over nonnegative rainfall values. -/
theorem scs_runoff_zero_formula_monotone (area cn tc r r1 r2 : ℚ)
    (h30 : 30 ≤ cn) (h100 : cn ≤ 100) (htc : 0 < tc) :
    (r ≤ scsIa cn → scsRunoff r cn = 0)
  ∧ (scsIa cn < r →
      scsRunoff r cn = (r - scsIa cn) ^ 2 / (r - scsIa cn + scsRetention cn))
  ∧ (estimate_discharge_from_rainfall r area cn tc).map
      DischargeEstimate.runoff = some (scsRunoff r cn)
  ∧ (0 ≤ r1 → r1 ≤ r2 → scsRunoff r1 cn ≤ scsRunoff r2 cn) := by
  refine ⟨?_, ?_, estimate_runoff_eq r area cn tc h30 h100, ?_⟩
  · intro h
    rw [scsRunoff, if_pos h]
  · intro h
    rw [scsRunoff, if_neg (not_le.mpr h)]
  · intro _ h12
    exact scsRunoff_mono cn r1 r2 h30 h100 h12

/-- C6 (witness): the runoff theorem applied at CN 75, Tc 6: runoff at
rainfall 10 is at most runoff at rainfall 20. -/
theorem scs_runoff_monotone_witness : scsRunoff 10 75 ≤ scsRunoff 20 75 :=
  (scs_runoff_zero_formula_monotone 10 75 6 100 10 20 (by norm_num)
    (by norm_num) (by norm_num)).2.2.2 (by norm_num) (by norm_num)

/-- C9 (counterexample): the two SCS implementations' peak-discharge formulas
do NOT differ anywhere on the common domain — the claimed unit inconsistency
does not exist (both divide by 3.6). -/
theorem scs_formulas_do_not_differ : ¬ scsFormulasDiffer := by
  rintro ⟨r, area, cn, tc, ⟨h30, h100, htc⟩, hne⟩
  exact hne (scs_peak_agree r area cn tc h30 h100 htc)

/-- C9 (amended): on the common domain (CN in [30, 100], Tc > 0) the two
SCS estimators compute equal peak discharges — both evaluate
`C * A * Q / (3.6 * Tc)`; the only difference between the two source
functions is presentation-level rounding of the returned dict. -/
theorem scs_peak_formulas_equivalent (r area cn tc : ℚ) (h30 : 30 ≤ cn)
    (h100 : cn ≤ 100) (htc : 0 < tc) :
    (estimate_discharge_from_rainfall r area cn tc).map
        DischargeEstimate.peak_discharge =
      (estimate_discharge_scs r area cn tc).map
        DischargeEstimate.peak_discharge :=
  scs_peak_agree r area cn tc h30 h100 htc

/-- C9 (witness): equality of the two peak discharges at rainfall 100 mm,
area 10 km², CN 75, Tc 6 h. -/
theorem scs_peak_formulas_equivalent_witness :
    (estimate_discharge_from_rainfall 100 10 75 6).map
        DischargeEstimate.peak_discharge =
      (estimate_discharge_scs 100 10 75 6).map
        DischargeEstimate.peak_discharge :=
  scs_peak_formulas_equivalent 100 10 75 6 (by norm_num) (by norm_num)
    (by norm_num)

/-- The Muskingum-Cunge denominator is positive for valid parameters. -/
theorem mcDenom_pos (K X dt : ℚ) (hK : 0 < K) (hdt : 0 < dt)
    (hX5 : X ≤ 5 / 10) : 0 < mcDenom K X dt := by
  rw [mcDenom]
  nlinarith [mul_pos hK (by linarith : (0 : ℚ) < 1 - X)]

/-- The three Muskingum-Cunge coefficients always sum to exactly 1 when the
denominator does not vanish. -/
theorem mc_sum_eq_one (K X dt : ℚ) (h : mcDenom K X dt ≠ 0) :
    mcC1 K X dt + mcC2 K X dt + mcC3 K X dt = 1 := by
  rw [mcC1, mcC2, mcC3]
  field_simp
  rw [mcDenom]
  ring

/-- The routing loop preserves length. -/
theorem mcOutflowAux_length (C1 C2 C3 : ℚ) :
    ∀ (rest : List ℚ) (pI pO : ℚ),
      (mcOutflowAux C1 C2 C3 pI pO rest).length = rest.length := by
  intro rest
  induction rest with
  | nil => intro pI pO; rfl
  | cons i t ih => intro pI pO; simp [mcOutflowAux, ih]

/-- The routed outflow series has the same length as the inflow series. -/
theorem mcOutflow_length (C1 C2 C3 : ℚ) (inflow : List ℚ) :
    (mcOutflow C1 C2 C3 inflow).length = inflow.length := by
  cases inflow with
  | nil => rfl
  | cons i0 rest => simp [mcOutflow, mcOutflowAux_length]

/-- The routed outflow starts at the first inflow value. -/
theorem mcOutflow_head (C1 C2 C3 : ℚ) (inflow : List ℚ) :
    (mcOutflow C1 C2 C3 inflow).get? 0 = inflow.get? 0 := by
  cases inflow <;> rfl

/-- The loop invariant of the routing recurrence on the tail. -/
theorem mcOutflowAux_rec (C1 C2 C3 : ℚ) :
    ∀ (rest : List ℚ) (pI pO : ℚ) (j : ℕ) (rj rj1 oj : ℚ),
      rest.get? j = some rj → rest.get? (j + 1) = some rj1 →
      (mcOutflowAux C1 C2 C3 pI pO rest).get? j = some oj →
      (mcOutflowAux C1 C2 C3 pI pO rest).get? (j + 1) =
        some (C1 * rj1 + C2 * rj + C3 * oj) := by
  intro rest
  induction rest with
  | nil =>
    intro pI pO j rj rj1 oj h _ _
    simp at h
  | cons i t ih =>
    intro pI pO j rj rj1 oj hj hj1 hoj
    cases j with
    | zero =>
      cases t with
      | nil => simp at hj1
      | cons x t2 =>
        obtain rfl : i = rj := by simpa using hj
        obtain rfl : x = rj1 := by simpa using hj1
        obtain rfl : C1 * i + C2 * pI + C3 * pO = oj := by
          simpa [mcOutflowAux] using hoj
        simp [mcOutflowAux]
    | succ k =>
      simp only [mcOutflowAux, List.get?_cons_succ] at hj hj1 hoj ⊢
      exact ih i _ k rj rj1 oj hj hj1 hoj

/-- The routing recurrence `O(j+1) = C1*I(j+1) + C2*I(j) + C3*O(j)` holds for
the full outflow series. -/
theorem mcOutflow_rec (C1 C2 C3 : ℚ) (inflow : List ℚ) (j : ℕ)
    (ij ij1 oj : ℚ) (hj : inflow.get? j = some ij)
    (hj1 : inflow.get? (j + 1) = some ij1)
    (hoj : (mcOutflow C1 C2 C3 inflow).get? j = some oj) :
    (mcOutflow C1 C2 C3 inflow).get? (j + 1) =
      some (C1 * ij1 + C2 * ij + C3 * oj) := by
  cases inflow with
  | nil => simp at hj
  | cons i0 rest =>
    cases j with
    | zero =>
      obtain rfl : i0 = ij := by simpa using hj
      obtain rfl : i0 = oj := by simpa [mcOutflow] using hoj
      cases rest with
      | nil => simp at hj1
      | cons x t =>
        obtain rfl : x = ij1 := by simpa using hj1
        simp [mcOutflow, mcOutflowAux]
    | succ k =>
      simp only [mcOutflow, List.get?_cons_succ] at hj hj1 hoj ⊢
      exact mcOutflowAux_rec C1 C2 C3 rest i0 i0 k ij ij1 oj hj hj1 hoj

/-- For validated parameters, the routing reduces to the stability test on
the three coefficients (the tolerance conjunct is automatically true since
the coefficients sum to exactly 1). -/
theorem muskingum_eq_of_valid (inflow : List ℚ) (K X dt : ℚ) (hK : 0 < K)
    (hdt : 0 < dt) (hX0 : 0 ≤ X) (hX5 : X ≤ 5 / 10) :
    muskingum_cunge_routing inflow K X dt =
      if 0 ≤ mcC1 K X dt ∧ 0 ≤ mcC2 K X dt ∧ 0 ≤ mcC3 K X dt then
        (match inflow with
         | [] => RoutingOutcome.emptyInflow
         | _ :: _ =>
             RoutingOutcome.ok (mcC1 K X dt) (mcC2 K X dt) (mcC3 K X dt)
               (mcOutflow (mcC1 K X dt) (mcC2 K X dt) (mcC3 K X dt) inflow))
      else
        RoutingOutcome.unstable (mcC1 K X dt) (mcC2 K X dt) (mcC3 K X dt)
          (mcC1 K X dt + mcC2 K X dt + mcC3 K X dt) := by
  have hden := mcDenom_pos K X dt hK hdt hX5
  have hsum := mc_sum_eq_one K X dt hden.ne'
  simp only [muskingum_cunge_routing]
  rw [if_neg (not_not_intro ⟨hX0, hX5⟩),
    if_neg (not_or.mpr ⟨not_le.mpr hK, not_le.mpr hdt⟩)]
  by_cases hstab : 0 ≤ mcC1 K X dt ∧ 0 ≤ mcC2 K X dt ∧ 0 ≤ mcC3 K X dt
  · rw [if_pos ⟨by rw [hsum]; norm_num, hstab.1, hstab.2.1, hstab.2.2⟩,
      if_pos hstab]
  · rw [if_neg (fun h => hstab h.2), if_neg hstab]

/-- C1 (amended): for valid parameters and non-empty inflow, the routing
succeeds if and only if all three coefficients are nonnegative and their sum
is within 1e-3 of 1 (the sum is always exactly 1), and otherwise it returns
the unstable-parameters error carrying the three coefficients and their sum.
Concretely K=3600, X=0.2, dt=3600 is stable with C1 = C3 = 3/13 ≈ 0.231 and
C2 = 7/13 ≈ 0.538, while K=100, X=0.2, dt=3600 is flagged unstable with
C3 = -43/47 < 0. -/
theorem muskingum_stability_check (inflow : List ℚ) (K X dt : ℚ)
    (hK : 0 < K) (hdt : 0 < dt) (hX0 : 0 ≤ X) (hX5 : X ≤ 5 / 10)
    (hne : inflow ≠ []) :
    ((muskingum_cunge_routing inflow K X dt).isOk = true ↔
      (0 ≤ mcC1 K X dt ∧ 0 ≤ mcC2 K X dt ∧ 0 ≤ mcC3 K X dt ∧
        |mcC1 K X dt + mcC2 K X dt + mcC3 K X dt - 1| < 1 / 1000))
  ∧ (¬(0 ≤ mcC1 K X dt ∧ 0 ≤ mcC2 K X dt ∧ 0 ≤ mcC3 K X dt) →
      muskingum_cunge_routing inflow K X dt =
        .unstable (mcC1 K X dt) (mcC2 K X dt) (mcC3 K X dt)
          (mcC1 K X dt + mcC2 K X dt + mcC3 K X dt))
  ∧ (mcC1 3600 (2 / 10) 3600 = 3 / 13 ∧ mcC2 3600 (2 / 10) 3600 = 7 / 13 ∧
      mcC3 3600 (2 / 10) 3600 = 3 / 13 ∧
      (muskingum_cunge_routing [10, 20, 15] 3600 (2 / 10) 3600).isOk = true)
  ∧ (mcC3 100 (2 / 10) 3600 = -43 / 47 ∧
      muskingum_cunge_routing [10, 20, 15] 100 (2 / 10) 3600 =
        .unstable (89 / 94) (91 / 94) (-43 / 47) 1) := by
  have hden := mcDenom_pos K X dt hK hdt hX5
  have hsum := mc_sum_eq_one K X dt hden.ne'
  have hmain := muskingum_eq_of_valid inflow K X dt hK hdt hX0 hX5
  refine ⟨?_, ?_, ?_, ?_⟩
  · rw [hmain]
    by_cases hstab : 0 ≤ mcC1 K X dt ∧ 0 ≤ mcC2 K X dt ∧ 0 ≤ mcC3 K X dt
    · rw [if_pos hstab]
      cases inflow with
      | nil => exact absurd rfl hne
      | cons i0 rest =>
        simp only [RoutingOutcome.isOk]
        rw [hsum]
        norm_num [hstab.1, hstab.2.1, hstab.2.2]
    · rw [if_neg hstab]
      exact iff_of_false (by simp [RoutingOutcome.isOk])
        (fun h => hstab ⟨h.1, h.2.1, h.2.2.1⟩)
  · intro hstab
    rw [hmain, if_neg hstab]
  · refine ⟨by norm_num [mcC1, mcDenom], by norm_num [mcC2, mcDenom],
      by norm_num [mcC3, mcDenom], ?_⟩
    rw [muskingum_eq_of_valid [10, 20, 15] 3600 (2 / 10) 3600 (by norm_num)
      (by norm_num) (by norm_num) (by norm_num)]
    rw [if_pos (by norm_num [mcC1, mcC2, mcC3, mcDenom])]
    rfl
  · refine ⟨by norm_num [mcC3, mcDenom], ?_⟩
    rw [muskingum_eq_of_valid [10, 20, 15] 100 (2 / 10) 3600 (by norm_num)
      (by norm_num) (by norm_num) (by norm_num)]
    rw [if_neg (fun h => absurd h.2.2 (by norm_num [mcC3, mcDenom]))]
    simp only [RoutingOutcome.unstable.injEq]
    norm_num [mcC1, mcC2, mcC3, mcDenom]

/-- C1 (witness): the stability theorem applied at the stable concrete case
K=3600, X=0.2, dt=3600 with inflow [10, 20, 15]. -/
theorem muskingum_stability_check_witness :
    (muskingum_cunge_routing [10, 20, 15] 3600 (2 / 10) 3600).isOk = true :=
  (muskingum_stability_check [10, 20, 15] 3600 (2 / 10) 3600 (by norm_num)
    (by norm_num) (by norm_num) (by norm_num) (by simp)).2.2.1.2.2.2

/-- C1 (counterexample): at K=3600s, X=0.2, dt=3600s the code's coefficients
are 3/13, 7/13, 3/13 (≈0.231, 0.538, 0.231) — not ≈0.111, ≈0.244, ≈0.644 as
the claim asserts (each is off by more than 0.1, 0.25, 0.4 respectively). -/
theorem muskingum_coefficients_counterexample :
    mcC1 3600 (2 / 10) 3600 = 3 / 13 ∧ mcC2 3600 (2 / 10) 3600 = 7 / 13 ∧
    mcC3 3600 (2 / 10) 3600 = 3 / 13 ∧
    ¬ |mcC1 3600 (2 / 10) 3600 - 111 / 1000| < 1 / 10 ∧
    ¬ |mcC2 3600 (2 / 10) 3600 - 244 / 1000| < 1 / 4 ∧
    ¬ |mcC3 3600 (2 / 10) 3600 - 644 / 1000| < 2 / 5 := by
  norm_num [mcC1, mcC2, mcC3, mcDenom, abs_lt]

/-- C2: with non-empty inflow and stable parameters, the routing returns the
outflow series with `outflow[0] = inflow[0]`, the recurrence
`outflow[j+1] = C1*inflow[j+1] + C2*inflow[j] + C3*outflow[j]` at every
index, and the same length as the inflow. -/
theorem muskingum_routing_recurrence (inflow : List ℚ) (K X dt : ℚ)
    (hne : inflow ≠ []) (hK : 0 < K) (hdt : 0 < dt) (hX0 : 0 ≤ X)
    (hX5 : X ≤ 5 / 10) (hC1 : 0 ≤ mcC1 K X dt) (hC2 : 0 ≤ mcC2 K X dt)
    (hC3 : 0 ≤ mcC3 K X dt)
    (htol : |mcC1 K X dt + mcC2 K X dt + mcC3 K X dt - 1| < 1 / 1000) :
    muskingum_cunge_routing inflow K X dt =
      .ok (mcC1 K X dt) (mcC2 K X dt) (mcC3 K X dt)
        (mcOutflow (mcC1 K X dt) (mcC2 K X dt) (mcC3 K X dt) inflow)
  ∧ (mcOutflow (mcC1 K X dt) (mcC2 K X dt) (mcC3 K X dt) inflow).length =
      inflow.length
  ∧ (mcOutflow (mcC1 K X dt) (mcC2 K X dt) (mcC3 K X dt) inflow).get? 0 =
      inflow.get? 0
  ∧ ∀ (j : ℕ) (ij ij1 oj : ℚ),
      inflow.get? j = some ij → inflow.get? (j + 1) = some ij1 →
      (mcOutflow (mcC1 K X dt) (mcC2 K X dt) (mcC3 K X dt) inflow).get? j =
        some oj →
      (mcOutflow (mcC1 K X dt) (mcC2 K X dt) (mcC3 K X dt) inflow).get?
          (j + 1) =
        some (mcC1 K X dt * ij1 + mcC2 K X dt * ij + mcC3 K X dt * oj) := by
  refine ⟨?_, mcOutflow_length _ _ _ _, mcOutflow_head _ _ _ _, ?_⟩
  · rw [muskingum_eq_of_valid inflow K X dt hK hdt hX0 hX5,
      if_pos ⟨hC1, hC2, hC3⟩]
    cases inflow with
    | nil => exact absurd rfl hne
    | cons i0 rest => rfl
  · intro j ij ij1 oj hj hj1 hoj
    exact mcOutflow_rec _ _ _ inflow j ij ij1 oj hj hj1 hoj

/-- C2 (witness): the routing theorem applied at inflow [10, 20, 15],
K=3600, X=0.2, dt=3600. -/
theorem muskingum_routing_recurrence_witness :
    muskingum_cunge_routing [10, 20, 15] 3600 (2 / 10) 3600 =
      .ok (mcC1 3600 (2 / 10) 3600) (mcC2 3600 (2 / 10) 3600)
        (mcC3 3600 (2 / 10) 3600)
        (mcOutflow (mcC1 3600 (2 / 10) 3600) (mcC2 3600 (2 / 10) 3600)
          (mcC3 3600 (2 / 10) 3600) [10, 20, 15]) :=
  (muskingum_routing_recurrence [10, 20, 15] 3600 (2 / 10) 3600 (by simp)
    (by norm_num) (by norm_num) (by norm_num) (by norm_num)
    (by norm_num [mcC1, mcDenom]) (by norm_num [mcC2, mcDenom])
    (by norm_num [mcC3, mcDenom])
    (by norm_num [mcC1, mcC2, mcC3, mcDenom])).1
